import Mathlib

/-!
Verification of the atc "version bump to tag" engine against its
natural-language specification.

The development shallowly embeds the fetch-orchestration engine of
src/githubservice/ghpush.go: the data model (settings, content providers,
version fetchers), the two-mode dispatch algorithm of fetch, the error
classification around errHttpStatusCode, the version comparison, and the
tag-caption template rendering.  Parts of the repository that the claims
need but that are not present under src/ (the concrete fetcher
implementations, the settings checker of ghsettings.go) are modelled from
the specification and from the test table of ghsettings_test.go; each such
definition says so in its doc comment.

Conventions of the embedding:
  - Go multiple return (value, error) becomes a pair of the value and an
    Option of the error type; a nil error is none.
  - Go map iteration (for range over autoFetchers) has unspecified order,
    so the auto-detect loop takes the iteration order as an explicit list
    argument; callers constrain it to be a permutation of the registered
    entries.
  - Logging (log.Printf) has no observable effect on results and is
    dropped.
-/

/-- Equality of Except values is decidable when both components are. -/
instance {α β : Type} [DecidableEq α] [DecidableEq β] : DecidableEq (Except α β) := fun a b =>
  match a, b with
  | Except.ok x, Except.ok y =>
    if h : x = y then isTrue (by rw [h]) else isFalse (by simp [h])
  | Except.error x, Except.error y =>
    if h : x = y then isTrue (by rw [h]) else isFalse (by simp [h])
  | Except.ok _, Except.error _ => isFalse (by simp)
  | Except.error _, Except.ok _ => isFalse (by simp)

/-- Errors that a version fetch can produce.  httpStatusCode stands for the
distinguished errHttpStatusCode sentinel of the repository (a classified
not-found / non-success retrieval error, recognized in ghpush.go via
errors.Is); other covers every other failure (transport faults, parse
failures), carrying its message. -/
inductive FetchErr : Type where
  | httpStatusCode : FetchErr
  | other : String → FetchErr
deriving DecidableEq, Repr

/-- Message text of a fetch error, as used when wrapping with %w / %v.
The text of the errHttpStatusCode sentinel is not under src/; the claims
never depend on it, only on its identity. -/
def FetchErr.message : FetchErr → String
  | FetchErr.httpStatusCode => "wrong http status code"
  | FetchErr.other m => m

/-- Message of an optional error; the none case is never used. -/
def optErrMessage : Option FetchErr → String
  | some e => e.message
  | none => ""

/-- Go %q formatting of a plain name (quotation without escapes; the
repository only formats repository full names and captions this way). -/
def goQuote (s : String) : String := "\"" ++ s ++ "\""

/-- ContentProvider capability of spec section 6: fetches the raw content of a
named file at the reference the provider was constructed with, or an error
that distinguishes not-found / non-success from other failures.  Models the
contentProvider interface consumed by ghpush.go. -/
abbrev ContentProvider : Type := String → String × Option FetchErr

/-- Settings document of ghsettings.go.  Modelled from the spec: the
AtcSettings struct itself is not under src/; the positional literal in
TestCheckSettingsForErrors fixes the fields Path, Behavior, Template in this
order.  The Branch field used only by the workflow glue of PushAction plays
no role in any claim and is omitted. -/
structure AtcSettings : Type where
  path : String
  behavior : String
  template : String
deriving DecidableEq, Repr

/-- VersionFetcher interface: GetVersion reads the manifest named by
settings.Path through the provider and extracts the version; a second
operation does the same at the variant's hard-coded default path (used only
in auto-detect mode).  Go's (string, error) return is a pair with an
optional error. -/
structure VersionFetcher : Type where
  getVersion : ContentProvider → AtcSettings → String × Option FetchErr
  getVersionUsingDefaultPath : ContentProvider → String × Option FetchErr

/-- The five fetcher implementations the orchestrator can dispatch to.
Their bodies are not under src/ (pomxmlfetcher.go etc.), so fetch is stated
for an arbitrary family of implementations. -/
structure FetcherImpls : Type where
  pomXmlFetcher : VersionFetcher
  buildGradleFetcher : VersionFetcher
  packagejsonFetcher : VersionFetcher
  pubspecyamlFetcher : VersionFetcher
  customRegexFetcher : VersionFetcher

/-- The registered fetcher map of ghpush.go lines 23-28, as an association
list: keys pom.xml, build.gradle, package.json, pubspec.yaml.  Iteration
order of the Go map is unspecified; lookups are order-independent. -/
def autoFetchers (impls : FetcherImpls) : List (String × VersionFetcher) :=
  [ ("pom.xml", impls.pomXmlFetcher),
    ("build.gradle", impls.buildGradleFetcher),
    ("package.json", impls.packagejsonFetcher),
    ("pubspec.yaml", impls.pubspecyamlFetcher) ]

/-- Go filepath.Base on a slash-separated path: empty input gives ".",
trailing slashes are stripped, an all-slash path gives "/", otherwise the
last path element is returned. -/
def goBase (path : String) : String :=
  if path = "" then "."
  else
    match (path.data.reverse).dropWhile (fun c => c == '/') with
    | [] => "/"
    | c :: t => String.mk (((c :: t).takeWhile (fun c => c != '/')).reverse)

/-- detectFetchType of ghpush.go lines 30-35: empty path maps to the empty
string (auto-detect mode), otherwise the base filename of the path. -/
def detectFetchType (path : String) : String :=
  if path = "" then "" else goBase path

/-- Fetcher resolution of ghpush.go lines 237-241: the registered fetcher
keyed by the detected type, or the generic customRegexFetcher when the map
lookup yields nil. -/
def resolveFetcher (impls : FetcherImpls) (fetchType : String) : VersionFetcher :=
  match List.lookup fetchType (autoFetchers impls) with
  | some f => f
  | none => impls.customRegexFetcher

/-- The fetcher explicit mode dispatches to, determined only by the settings
path. -/
def explicitFetcher (impls : FetcherImpls) (s : AtcSettings) : VersionFetcher :=
  resolveFetcher impls (detectFetchType s.path)

/-- The characters of the template placeholder of TagContent, the action
written as two opening braces, .Version, two closing braces. -/
def versionPlaceholder : List Char :=
  ['\x7b', '\x7b', '.', 'V', 'e', 'r', 's', 'i', 'o', 'n', '\x7d', '\x7d']

/-- Whether pat is a leading segment of l. -/
def charsLead : List Char → List Char → Bool
  | [], _ => true
  | _ :: _, [] => false
  | a :: as, b :: bs => a == b && charsLead as bs

/-- Whether pat occurs as a contiguous segment of l. -/
def occursIn (pat : List Char) : List Char → Bool
  | [] => charsLead pat []
  | l@(_ :: rest) => charsLead pat l || occursIn pat rest

/-- Substitution semantics of executing the parsed tag-name template of
ghpush.go lines 37-52 on TagContent: every occurrence of the version
placeholder is replaced by the version, other characters are copied.  This
models Go text/template on the fragment the repository uses (literal text
plus the version action); templateOk below delimits that fragment. -/
def renderChars (version : List Char) : List Char → List Char
  | [] => []
  | c :: rest =>
    if charsLead versionPlaceholder (c :: rest) then
      match rest with
      | _ :: _ :: _ :: _ :: _ :: _ :: _ :: _ :: _ :: _ :: _ :: tail =>
        version ++ renderChars version tail
      | _ => []
    else
      c :: renderChars version rest

/-- Delimits the template fragment the embedding models faithfully: every
brace belongs to a version-placeholder action.  Outside this fragment the
modelled renderer reports an error where Go text/template may parse other
actions; no claim depends on behavior outside the fragment. -/
def templateOk : List Char → Bool
  | [] => true
  | c :: rest =>
    if charsLead versionPlaceholder (c :: rest) then
      match rest with
      | _ :: _ :: _ :: _ :: _ :: _ :: _ :: _ :: _ :: _ :: _ :: tail => templateOk tail
      | _ => false
    else if c == '\x7b' || c == '\x7d' then false
    else templateOk rest

/-- renderTagNameTemplate of ghpush.go lines 37-52: parse the template and
execute it on TagContent holding the version.  Parsing and execution are
modelled on the literal-plus-placeholder fragment; a template outside the
fragment yields an error, as an invalid template does in Go. -/
def renderTagNameTemplate (templateString version : String) : Except String String :=
  if templateOk templateString.data then
    Except.ok (String.mk (renderChars version.data templateString.data))
  else
    Except.error ("template: unsupported action in " ++ goQuote templateString)

/-- Explicit-mode version retrieval of ghpush.go lines 243-251, for a given
fetcher: GetVersion against the old provider, tolerating exactly the
classified errHttpStatusCode error (any other old error aborts with the
wrapped prev-version message), then GetVersion against the new provider,
where any error aborts with the wrapped new-version message; on success the
two returned version strings are adopted. -/
def explicitVersionsWith (fetcher : VersionFetcher) (s : AtcSettings)
    (oldP newP : ContentProvider) (fullname : String) :
    Except String (String × String) :=
  if (fetcher.getVersion oldP s).2 ≠ none ∧
      (fetcher.getVersion oldP s).2 ≠ some FetchErr.httpStatusCode then
    Except.error ("get prev version error for " ++ goQuote fullname ++ ": " ++
      optErrMessage (fetcher.getVersion oldP s).2)
  else
    match (fetcher.getVersion newP s).2 with
    | some e =>
      Except.error ("get new version error for " ++ goQuote fullname ++ ": " ++ e.message)
    | none => Except.ok ((fetcher.getVersion oldP s).1, (fetcher.getVersion newP s).1)

/-- Explicit-mode retrieval with the fetcher resolved from the settings
path (ghpush.go lines 235-251). -/
def explicitVersions (impls : FetcherImpls) (s : AtcSettings)
    (oldP newP : ContentProvider) (fullname : String) :
    Except String (String × String) :=
  explicitVersionsWith (explicitFetcher impls s) s oldP newP fullname

/-- Auto-detect loop of ghpush.go lines 252-272, over the given iteration
order of the registered map entries: for each fetcher, GetVersionUsingDefaultPath
against the old provider (any error other than the classified
errHttpStatusCode disqualifies the fetcher), then against the new provider
(any error disqualifies the fetcher); the first fetcher whose new call
succeeds wins and its two returned strings are adopted; if the entries are
exhausted the loop fails with the literal error of line 271. -/
def autoVersions (oldP newP : ContentProvider) :
    List (String × VersionFetcher) → Except String (String × String)
  | [] => Except.error "unable to fetch version using known methods"
  | kf :: rest =>
    if (kf.2.getVersionUsingDefaultPath oldP).2 ≠ none ∧
        (kf.2.getVersionUsingDefaultPath oldP).2 ≠ some FetchErr.httpStatusCode then
      autoVersions oldP newP rest
    else
      match (kf.2.getVersionUsingDefaultPath newP).2 with
      | none => Except.ok ((kf.2.getVersionUsingDefaultPath oldP).1,
          (kf.2.getVersionUsingDefaultPath newP).1)
      | some _ => autoVersions oldP newP rest

/-- Version-pair selection stage of fetch (ghpush.go lines 232-273):
explicit mode when the detected fetch type is non-empty, auto-detect mode
otherwise.  The order argument is the iteration order Go's map range
chooses for this call. -/
def fetchVersions (impls : FetcherImpls) (order : List (String × VersionFetcher))
    (s : AtcSettings) (oldP newP : ContentProvider) (fullname : String) :
    Except String (String × String) :=
  if detectFetchType s.path ≠ "" then
    explicitVersionsWith (explicitFetcher impls s) s oldP newP fullname
  else
    autoVersions oldP newP order

/-- Comparison and rendering stage of fetch (ghpush.go lines 275-285):
differing version strings render the template with the new version (a
render failure is wrapped as a go-templates error), identical version
strings yield the empty caption with no error. -/
def compareAndRender (s : AtcSettings) (oldVersion newVersion : String) :
    Except String String :=
  if newVersion ≠ oldVersion then
    match renderTagNameTemplate s.template newVersion with
    | Except.error e => Except.error ("error in go templates: " ++ e)
    | Except.ok caption => Except.ok caption
  else
    Except.ok ""

/-- fetch of ghpush.go lines 230-286: select the version pair by dispatch
mode, then compare and render. -/
def fetch (impls : FetcherImpls) (order : List (String × VersionFetcher))
    (s : AtcSettings) (oldP newP : ContentProvider) (fullname : String) :
    Except String String :=
  match fetchVersions impls order s oldP newP fullname with
  | Except.error e => Except.error e
  | Except.ok (oldVersion, newVersion) => compareAndRender s oldVersion newVersion

/-- Whether pat is a trailing segment of l. -/
def trailsWith (pat l : List Char) : Bool :=
  charsLead pat.reverse l.reverse

/-- The placeholder token required of a configured template by the settings
checker, written with a lowercase v in the test table. -/
def versionPlaceholderLower : List Char :=
  ['\x7b', '\x7b', '.', 'v', 'e', 'r', 's', 'i', 'o', 'n', '\x7d', '\x7d']

/-- Modelled from the spec: checkSettingsForErrors of ghsettings.go is not
under src/; only its test table (ghsettings_test.go lines 57-85) and spec
section 4.1 describe it.  Rules are applied in order with the first failure
winning, returning the literal messages of the test table: empty path;
path with leading slash; path containing a double slash; base filename
lacking a supported suffix; empty behavior; behavior other than before or
after; empty template; template without the lowercase version placeholder.
The suffix rule is checked on the base filename so that a trailing slash
(test row contents/pom.xml/) passes, per spec rule 4. -/
def checkSettingsForErrors (s : AtcSettings) : Option String :=
  if s.path = "" then
    some "error .atc.yaml; path = \"\"; check your configurate file"
  else if charsLead ['/'] s.path.data then
    some "error .atc.yaml; path has prefix \"/\""
  else if occursIn ['/', '/'] s.path.data then
    some "error .atc.yaml; path has \"//\""
  else if !(["pom.xml", "gradle.properties", ".npmrc"].any
      (fun k => trailsWith k.data (goBase s.path).data)) then
    some "error .atc.yaml: path no has suffix \"pom.xml\" or \"gradle.properties\" or \".npmrc\""
  else if s.behavior = "" then
    some "error .atc.yaml; behavior = \"\"; check your configurate file"
  else if !(s.behavior == "before" || s.behavior == "after") then
    some "error .atc.yaml: behavior no contains \"before\" or \"after\""
  else if s.template = "" then
    some "error .atc.yaml; template = \"\"; check your configurate file"
  else if !(occursIn versionPlaceholderLower s.template.data) then
    some "error .atc.yaml: template no contains \"\x7b\x7b.version\x7d\x7d\""
  else
    none

/-- Observable effects the tagging workflow performs against the hosting
API: submitting an annotated tag (tag name, message, target sha) and
posting a commit comment (sha, body). -/
inductive GhEffect : Type where
  | addTag : String → String → String → GhEffect
  | addComment : String → String → GhEffect
deriving DecidableEq, Repr

/-- Tail of PushAction (ghpush.go lines 108-141) after fetch returned a
caption without error: a tag whose Tag and Message fields are both the
caption is constructed and submitted at the behavior-selected sha; if the
submission fails a failure comment is posted, otherwise the
Added-a-new-version comment quoting the full name and the caption.  The
submission outcome is the tagErr argument since addTagToCommit is remote
I/O. -/
def pushActionAfterFetch (caption sha fullname : String) (tagErr : Option String) :
    List GhEffect :=
  GhEffect.addTag caption caption sha ::
    (match tagErr with
     | some e => [GhEffect.addComment sha ("can't add tag to commit, error : " ++ e)]
     | none =>
       [GhEffect.addComment sha
         ("Added a new version for " ++ goQuote fullname ++ ": " ++ goQuote caption)])

/-- Tail of CIPushAction (ghpush.go lines 191-227) after fetch returned a
caption without error: a tag whose Tag and Message fields are both the
caption is submitted at the behavior-selected sha (the success log line has
no API effect). -/
def ciPushActionAfterFetch (caption sha : String) : List GhEffect :=
  [GhEffect.addTag caption caption sha]

/-- Remainder of l after the first occurrence of tag, if any. -/
def dropUntilTag (tag : List Char) : List Char → Option (List Char)
  | [] => none
  | l@(_ :: rest) =>
    if charsLead tag l then some (l.drop tag.length) else dropUntilTag tag rest

/-- Longest leading segment of l before the first occurrence of tag. -/
def takeUntilTag (tag : List Char) : List Char → List Char
  | [] => []
  | l@(c :: rest) => if charsLead tag l then [] else c :: takeUntilTag tag rest

/-- Modelled from the spec: the pom.xml fetcher implementation is not under
src/; spec section 4.2 (and the earlier in-repo extractor
getVersionFromPomXml) extract the scalar version element of the document,
failing on content without one. -/
def getVersionFromPomXml (content : String) : String × Option FetchErr :=
  match dropUntilTag "<version>".data content.data with
  | some rest => (String.mk (takeUntilTag "</version>".data rest), none)
  | none => ("", some (FetchErr.other "xml unmarshal error"))

/-- Modelled from the spec: the pubspec.yaml fetcher implementation is not
under src/; spec section 4.2 extracts the version key of the YAML mapping,
here the text of the line following the version key, failing on content
without the key. -/
def getVersionFromPubspecYaml (content : String) : String × Option FetchErr :=
  match dropUntilTag "version:".data content.data with
  | some rest =>
    (String.mk ((rest.dropWhile (fun c => c == ' ')).takeWhile (fun c => c != '\n')), none)
  | none => ("", some (FetchErr.other "yaml unmarshal error"))

/-- Modelled from the spec: each concrete fetcher obtains the content at
the settings path (or at its canonical default path) through the provider,
forwarding a retrieval error with the zero value, and otherwise parses the
content (spec sections 4.2 and 6). -/
def fetcherOfParse (parse : String → String × Option FetchErr) (defaultPath : String) :
    VersionFetcher :=
  { getVersion := fun p s =>
      match p s.path with
      | (c, none) => parse c
      | (_, some e) => ("", some e),
    getVersionUsingDefaultPath := fun p =>
      match p defaultPath with
      | (c, none) => parse c
      | (_, some e) => ("", some e) }

/-- A fetcher variant whose retrievals always fail with an unclassified
error, standing for formats absent from a concrete repository. -/
def failFetcher : VersionFetcher :=
  { getVersion := fun _ _ => ("", some (FetchErr.other "unsupported")),
    getVersionUsingDefaultPath := fun _ => ("", some (FetchErr.other "unsupported")) }

/-- A concrete implementation family for evaluating fetch: modelled pom.xml
and pubspec.yaml fetchers, all other variants failing. -/
def implsExample : FetcherImpls :=
  { pomXmlFetcher := fetcherOfParse getVersionFromPomXml "pom.xml",
    buildGradleFetcher := failFetcher,
    packagejsonFetcher := failFetcher,
    pubspecyamlFetcher := fetcherOfParse getVersionFromPubspecYaml "pubspec.yaml",
    customRegexFetcher := failFetcher }

/-- Provider for the old reference of the worked examples: a pom.xml at
version 1.0.0 and a pubspec.yaml at version 9.9.9; every other file is
absent. -/
def oldPex : ContentProvider := fun path =>
  if path = "pom.xml" then ("<project><version>1.0.0</version></project>", none)
  else if path = "pubspec.yaml" then ("version: 9.9.9\n", none)
  else ("", some (FetchErr.other "404"))

/-- Provider for the new reference of the worked examples: the pom.xml
version moved to 1.1.0, the pubspec.yaml version unchanged. -/
def newPex : ContentProvider := fun path =>
  if path = "pom.xml" then ("<project><version>1.1.0</version></project>", none)
  else if path = "pubspec.yaml" then ("version: 9.9.9\n", none)
  else ("", some (FetchErr.other "404"))

/-- Provider at which every file is absent. -/
def deadProvider : ContentProvider := fun _ => ("", some (FetchErr.other "404"))

/-- Settings of the end-to-end scenario: explicit pom.xml path and the
v-prefixed version template. -/
def pomSettings : AtcSettings :=
  { path := "pom.xml", behavior := "before", template := "v\x7b\x7b.Version\x7d\x7d" }

/-- Settings selecting auto-detect mode. -/
def autoSettings : AtcSettings :=
  { path := "", behavior := "before", template := "v\x7b\x7b.Version\x7d\x7d" }

/-- Go filepath.Base never returns the empty string. -/
theorem goBase_ne_empty (p : String) : goBase p ≠ "" := by
  unfold goBase
  by_cases hp : p = ""
  · simp [hp]
  · rw [if_neg hp]
    cases hdw : (p.data.reverse).dropWhile (fun c => c == '/') with
    | nil => simp
    | cons c t =>
      have hc : (c == '/') = false := by
        have hh := List.head?_dropWhile_not (fun x => x == '/') p.data.reverse
        rw [hdw] at hh
        simpa using hh
      simp only [List.takeWhile_cons, hc]
      intro h
      have hdata := congrArg String.data h
      simp at hdata
      rw [hdata] at hc
      simp at hc

/-- The detected fetch type of a non-empty path is non-empty, so explicit
mode is taken exactly when the settings path is non-empty. -/
theorem detectFetchType_ne_empty (p : String) (hp : p ≠ "") : detectFetchType p ≠ "" := by
  unfold detectFetchType
  rw [if_neg hp]
  exact goBase_ne_empty p

/-- With an empty settings path, fetch runs the auto-detect loop and then
compares and renders. -/
theorem fetch_auto (impls : FetcherImpls) (order : List (String × VersionFetcher))
    (s : AtcSettings) (oldP newP : ContentProvider) (fn : String)
    (hpath : s.path = "") :
    fetch impls order s oldP newP fn =
      match autoVersions oldP newP order with
      | Except.error e => Except.error e
      | Except.ok (o, n) => compareAndRender s o n := by
  have hd : detectFetchType s.path = "" := by rw [hpath]; rfl
  unfold fetch fetchVersions
  simp [hd]

/-- With a non-empty settings path, fetch resolves the explicit fetcher,
runs the explicit retrieval, and then compares and renders. -/
theorem fetch_explicit (impls : FetcherImpls) (order : List (String × VersionFetcher))
    (s : AtcSettings) (oldP newP : ContentProvider) (fn : String)
    (hpath : s.path ≠ "") :
    fetch impls order s oldP newP fn =
      match explicitVersionsWith (explicitFetcher impls s) s oldP newP fn with
      | Except.error e => Except.error e
      | Except.ok (o, n) => compareAndRender s o n := by
  unfold fetch fetchVersions
  rw [if_pos (detectFetchType_ne_empty s.path hpath)]

/-- A successful leading-segment test decomposes the list. -/
theorem charsLead_append (pat : List Char) :
    ∀ l, charsLead pat l = true → ∃ t, l = pat ++ t := by
  induction pat with
  | nil => intro l _; exact ⟨l, rfl⟩
  | cons a as ih =>
    intro l h
    cases l with
    | nil => simp [charsLead] at h
    | cons b bs =>
      simp only [charsLead, Bool.and_eq_true, beq_iff_eq] at h
      obtain ⟨t, ht⟩ := ih bs h.2
      exact ⟨t, by simp [h.1, ht]⟩

/-- Rendering a template that starts with the placeholder emits the
version and continues after it. -/
theorem renderChars_placeholder (v tail : List Char) :
    renderChars v (versionPlaceholder ++ tail) = v ++ renderChars v tail := rfl

/-- Rendering copies a character that does not start a placeholder. -/
theorem renderChars_cons_of_not_lead (v : List Char) (c : Char) (rest : List Char)
    (h : charsLead versionPlaceholder (c :: rest) = false) :
    renderChars v (c :: rest) = c :: renderChars v rest := by
  rw [renderChars.eq_def]
  simp [h]

/-- A well-formed template stays well-formed after a non-placeholder
character. -/
theorem templateOk_cons (c : Char) (rest : List Char)
    (hlead : charsLead versionPlaceholder (c :: rest) = false)
    (h : templateOk (c :: rest) = true) :
    templateOk rest = true := by
  rw [templateOk.eq_def] at h
  simp only [hlead] at h
  by_cases hbrace : (c == '\x7b' || c == '\x7d') = true
  · simp [hbrace] at h
  · simpa [hbrace] using h

/-- Rendering a well-formed template containing the placeholder yields
output containing the version as a contiguous segment. -/
theorem renderChars_contains (v : List Char) :
    ∀ t, templateOk t = true → occursIn versionPlaceholder t = true →
      ∃ l r, renderChars v t = l ++ v ++ r := by
  intro t
  induction t with
  | nil => intro _ hocc; simp [occursIn, charsLead, versionPlaceholder] at hocc
  | cons c rest ih =>
    intro htok hocc
    cases hlead : charsLead versionPlaceholder (c :: rest) with
    | true =>
      obtain ⟨tail, htail⟩ := charsLead_append versionPlaceholder (c :: rest) hlead
      rw [htail, renderChars_placeholder]
      exact ⟨[], renderChars v tail, rfl⟩
    | false =>
      have hocc2 : occursIn versionPlaceholder rest = true := by
        simpa [occursIn, hlead] using hocc
      have htok2 : templateOk rest = true := templateOk_cons c rest hlead htok
      obtain ⟨l, r, hlr⟩ := ih htok2 hocc2
      rw [renderChars_cons_of_not_lead v c rest hlead, hlr]
      exact ⟨c :: l, r, rfl⟩

/-- The compare-and-render stage never produces the auto-detect exhaustion
error: its only error is wrapped as a go-templates error, whose text is
longer. -/
theorem compareAndRender_ne_unable (s : AtcSettings) (a b : String) :
    compareAndRender s a b ≠ Except.error "unable to fetch version using known methods" := by
  unfold compareAndRender
  by_cases hne : b ≠ a
  · rw [if_pos hne]
    unfold renderTagNameTemplate
    by_cases htok : templateOk s.template.data = true
    · rw [if_pos htok]
      simp
    · rw [if_neg htok]
      intro h
      injection h with h2
      have hlen := congrArg String.length h2
      rw [show ("unable to fetch version using known methods" : String).length = 43 from rfl]
        at hlen
      simp only [String.length_append, goQuote] at hlen
      rw [show ("error in go templates: " : String).length = 23 from rfl,
        show ("template: unsupported action in " : String).length = 32 from rfl,
        show ("\"" : String).length = 1 from rfl] at hlen
      omega
  · rw [if_neg hne]
    simp

/-- A registered fetcher wins an auto-detect attempt when its old-reference
retrieval succeeds or fails with the classified errHttpStatusCode and its
new-reference retrieval succeeds. -/
def attemptWins (oldP newP : ContentProvider) (kf : String × VersionFetcher) : Prop :=
  ((kf.2.getVersionUsingDefaultPath oldP).2 = none ∨
   (kf.2.getVersionUsingDefaultPath oldP).2 = some FetchErr.httpStatusCode) ∧
  (kf.2.getVersionUsingDefaultPath newP).2 = none

instance (oldP newP : ContentProvider) (kf : String × VersionFetcher) :
    Decidable (attemptWins oldP newP kf) := by
  unfold attemptWins
  infer_instance

/-- The version pair a winning fetcher adopts: the strings returned against
the old and new providers. -/
def adoptedPair (oldP newP : ContentProvider) (kf : String × VersionFetcher) :
    String × String :=
  ((kf.2.getVersionUsingDefaultPath oldP).1, (kf.2.getVersionUsingDefaultPath newP).1)

/-- An old-reference retrieval outcome that is not a hard error is a
success or the classified error. -/
theorem tolerated_of_not_hard (o : Option FetchErr)
    (h : ¬ (o ≠ none ∧ o ≠ some FetchErr.httpStatusCode)) :
    o = none ∨ o = some FetchErr.httpStatusCode := by
  by_cases h1 : o = none
  · exact Or.inl h1
  · right
    by_contra h2
    exact h ⟨h1, h2⟩

/-- The auto-detect loop errs with the exhaustion message exactly when no
entry of the iteration wins. -/
theorem autoVersions_error_iff (oldP newP : ContentProvider) :
    ∀ order, (autoVersions oldP newP order =
        Except.error "unable to fetch version using known methods" ↔
      ∀ kf ∈ order, ¬ attemptWins oldP newP kf) := by
  intro order
  induction order with
  | nil => simp [autoVersions]
  | cons kf rest ih =>
    by_cases hold : (kf.2.getVersionUsingDefaultPath oldP).2 ≠ none ∧
        (kf.2.getVersionUsingDefaultPath oldP).2 ≠ some FetchErr.httpStatusCode
    · have hnw : ¬ attemptWins oldP newP kf := by
        intro hw
        rcases hw.1 with h | h
        · exact hold.1 h
        · exact hold.2 h
      simp only [autoVersions]
      rw [if_pos hold, ih]
      constructor
      · intro h x hx
        rcases List.mem_cons.mp hx with rfl | hx2
        · exact hnw
        · exact h x hx2
      · intro h x hx
        exact h x (List.mem_cons_of_mem kf hx)
    · have htol := tolerated_of_not_hard _ hold
      simp only [autoVersions]
      rw [if_neg hold]
      cases hnew : (kf.2.getVersionUsingDefaultPath newP).2 with
      | none =>
        have hw : attemptWins oldP newP kf := ⟨htol, hnew⟩
        constructor
        · intro h
          simp at h
        · intro h
          exact absurd hw (h kf (List.mem_cons_self _ _))
      | some e =>
        have hnw : ¬ attemptWins oldP newP kf := by
          intro hw
          rw [hw.2] at hnew
          cases hnew
        rw [ih]
        constructor
        · intro h x hx
          rcases List.mem_cons.mp hx with rfl | hx2
          · exact hnw
          · exact h x hx2
        · intro h x hx
          exact h x (List.mem_cons_of_mem kf hx)

/-- The auto-detect loop adopts the version pair of the first winning
entry of the iteration. -/
theorem autoVersions_first_win (oldP newP : ContentProvider) :
    ∀ pre (kf : String × VersionFetcher) post,
      (∀ x ∈ pre, ¬ attemptWins oldP newP x) → attemptWins oldP newP kf →
      autoVersions oldP newP (pre ++ kf :: post) =
        Except.ok (adoptedPair oldP newP kf) := by
  intro pre
  induction pre with
  | nil =>
    intro kf post _ hw
    simp only [List.nil_append, autoVersions]
    rw [if_neg ?hneg]
    case hneg =>
      intro hcontra
      rcases hw.1 with h | h
      · exact hcontra.1 h
      · exact hcontra.2 h
    rw [hw.2]
    rfl
  | cons x pre ih =>
    intro kf post hpre hw
    have hx : ¬ attemptWins oldP newP x := hpre x (List.mem_cons_self _ _)
    have hpre2 : ∀ y ∈ pre, ¬ attemptWins oldP newP y :=
      fun y hy => hpre y (List.mem_cons_of_mem x hy)
    simp only [List.cons_append, autoVersions]
    by_cases hold : (x.2.getVersionUsingDefaultPath oldP).2 ≠ none ∧
        (x.2.getVersionUsingDefaultPath oldP).2 ≠ some FetchErr.httpStatusCode
    · rw [if_pos hold]
      exact ih kf post hpre2 hw
    · rw [if_neg hold]
      have htol := tolerated_of_not_hard _ hold
      cases hnew : (x.2.getVersionUsingDefaultPath newP).2 with
      | none => exact absurd ⟨htol, hnew⟩ hx
      | some e => exact ih kf post hpre2 hw

/-- In auto-detect mode, fetch returns the exhaustion error exactly when
the loop does. -/
theorem fetch_auto_error_iff (impls : FetcherImpls)
    (order : List (String × VersionFetcher)) (s : AtcSettings)
    (oldP newP : ContentProvider) (fn : String) (hpath : s.path = "") :
    (fetch impls order s oldP newP fn =
        Except.error "unable to fetch version using known methods" ↔
      ∀ kf ∈ order, ¬ attemptWins oldP newP kf) := by
  rw [fetch_auto impls order s oldP newP fn hpath, ← autoVersions_error_iff oldP newP order]
  cases hav : autoVersions oldP newP order with
  | error e => simp
  | ok p =>
    obtain ⟨a, b⟩ := p
    simp only []
    constructor
    · intro h
      exact absurd h (compareAndRender_ne_unable s a b)
    · intro h
      cases h

/-- Claim C4: whenever the adopted old and new version strings are equal
(string equality, including both empty), fetch returns the empty caption
and no error, in explicit mode and in auto-detect mode alike. -/
theorem fetch_unchanged_empty_caption (impls : FetcherImpls)
    (order : List (String × VersionFetcher)) (s : AtcSettings)
    (oldP newP : ContentProvider) (fn v : String) :
    (s.path ≠ "" → explicitVersions impls s oldP newP fn = Except.ok (v, v) →
      fetch impls order s oldP newP fn = Except.ok "") ∧
    (s.path = "" → autoVersions oldP newP order = Except.ok (v, v) →
      fetch impls order s oldP newP fn = Except.ok "") := by
  constructor
  · intro hp hv
    rw [fetch_explicit impls order s oldP newP fn hp]
    unfold explicitVersions at hv
    rw [hv]
    simp [compareAndRender]
  · intro hp hv
    rw [fetch_auto impls order s oldP newP fn hp]
    rw [hv]
    simp [compareAndRender]

/-- Witness for C4: a pom.xml repository whose version is 1.1.0 at both
references yields the empty caption in explicit mode, and an auto-detect
iteration that reaches the unchanged pubspec.yaml yields it too. -/
theorem fetch_unchanged_empty_caption_witness :
    fetch implsExample [] pomSettings newPex newPex "o/r" = Except.ok "" ∧
    fetch implsExample ((autoFetchers implsExample).reverse) autoSettings oldPex newPex
      "o/r" = Except.ok "" :=
  ⟨(fetch_unchanged_empty_caption implsExample [] pomSettings newPex newPex "o/r"
      "1.1.0").1 (by decide) (by decide),
   (fetch_unchanged_empty_caption implsExample ((autoFetchers implsExample).reverse)
      autoSettings oldPex newPex "o/r" "9.9.9").2 rfl (by decide)⟩

/-- Claim C8: when the adopted version pair is unchanged, fetch returns the
empty caption without touching the template: even a template on which the
renderer errs causes no failure on the unchanged path. -/
theorem unchanged_skips_template (impls : FetcherImpls)
    (order : List (String × VersionFetcher)) (s : AtcSettings)
    (oldP newP : ContentProvider) (fn v e : String)
    (hv : fetchVersions impls order s oldP newP fn = Except.ok (v, v))
    (he : renderTagNameTemplate s.template v = Except.error e) :
    fetch impls order s oldP newP fn = Except.ok "" := by
  unfold fetch
  rw [hv]
  simp [compareAndRender]

/-- Witness for C8: a settings document with a template the renderer
rejects still yields the empty caption when the pom.xml version is 1.1.0
at both references. -/
theorem unchanged_skips_template_witness :
    fetch implsExample []
      { path := "pom.xml", behavior := "before", template := "\x7b\x7bbroken" }
      newPex newPex "o/r" = Except.ok "" :=
  unchanged_skips_template implsExample []
    { path := "pom.xml", behavior := "before", template := "\x7b\x7bbroken" }
    newPex newPex "o/r" "1.1.0" "template: unsupported action in \"\x7b\x7bbroken\""
    (by decide) (by decide)

/-- Claim C9: neither PushAction nor CIPushAction special-cases the
unchanged outcome: on the empty caption both still construct and submit a
tag whose Tag and Message fields are the empty string, and PushAction then
posts the Added-a-new-version comment quoting the empty caption, rather
than treating the result as a no-op. -/
theorem push_actions_on_unchanged (sha fn : String) :
    pushActionAfterFetch "" sha fn none =
      [GhEffect.addTag "" "" sha,
       GhEffect.addComment sha
         ("Added a new version for " ++ goQuote fn ++ ": " ++ goQuote "")] ∧
    ciPushActionAfterFetch "" sha = [GhEffect.addTag "" "" sha] := by
  exact ⟨rfl, rfl⟩

/-- Witness for C9 at a concrete sha and repository name. -/
theorem push_actions_on_unchanged_witness :
    pushActionAfterFetch "" "deadbeef" "octocat/Hello-World" none =
      [GhEffect.addTag "" "" "deadbeef",
       GhEffect.addComment "deadbeef"
         ("Added a new version for " ++ goQuote "octocat/Hello-World" ++ ": " ++
          goQuote "")] ∧
    ciPushActionAfterFetch "" "deadbeef" = [GhEffect.addTag "" "" "deadbeef"] :=
  push_actions_on_unchanged "deadbeef" "octocat/Hello-World"

/-- Claim C10: fetcher dispatch depends only on the base filename of the
settings path: two non-empty paths with the same base resolve to the same
fetcher; in particular a trailing slash still dispatches to the pom.xml
fetcher, and leading or doubled slashes never change the detected type. -/
theorem dispatch_depends_only_on_base (impls : FetcherImpls) (p q : String)
    (hp : p ≠ "") (hq : q ≠ "") (hb : goBase p = goBase q) :
    (detectFetchType p = detectFetchType q ∧
     resolveFetcher impls (detectFetchType p) = resolveFetcher impls (detectFetchType q)) ∧
    resolveFetcher impls (detectFetchType "contents/pom.xml/") = impls.pomXmlFetcher ∧
    detectFetchType "//contents//pom.xml/" = "pom.xml" := by
  have hd : detectFetchType p = detectFetchType q := by
    unfold detectFetchType
    rw [if_neg hp, if_neg hq, hb]
  refine ⟨⟨hd, by rw [hd]⟩, ?_, by decide⟩
  rw [show detectFetchType "contents/pom.xml/" = "pom.xml" from by decide]
  rfl

/-- Witness for C10: the paths a/pom.xml and b//pom.xml/ share the base
filename pom.xml and dispatch identically. -/
theorem dispatch_depends_only_on_base_witness :
    (detectFetchType "a/pom.xml" = detectFetchType "b//pom.xml/" ∧
     resolveFetcher implsExample (detectFetchType "a/pom.xml") =
       resolveFetcher implsExample (detectFetchType "b//pom.xml/")) ∧
    resolveFetcher implsExample (detectFetchType "contents/pom.xml/") =
      implsExample.pomXmlFetcher ∧
    detectFetchType "//contents//pom.xml/" = "pom.xml" :=
  dispatch_depends_only_on_base implsExample "a/pom.xml" "b//pom.xml/"
    (by decide) (by decide) (by decide)

/-- Claim C7: for a non-empty settings path whose base filename is keyed by
no registered fetcher, dispatch selects the generic regex fallback fetcher
and the version-selection stage proceeds with it; no unsupported-format
error exists at dispatch time. -/
theorem explicit_dispatch_fallback (impls : FetcherImpls)
    (order : List (String × VersionFetcher)) (s : AtcSettings)
    (oldP newP : ContentProvider) (fn : String)
    (hp : s.path ≠ "")
    (hmiss : List.lookup (detectFetchType s.path) (autoFetchers impls) = none) :
    explicitFetcher impls s = impls.customRegexFetcher ∧
    fetchVersions impls order s oldP newP fn =
      explicitVersionsWith impls.customRegexFetcher s oldP newP fn := by
  have hf : explicitFetcher impls s = impls.customRegexFetcher := by
    unfold explicitFetcher resolveFetcher
    rw [hmiss]
  refine ⟨hf, ?_⟩
  unfold fetchVersions
  rw [if_pos (detectFetchType_ne_empty s.path hp), hf]

/-- Witness for C7: the unregistered base filename custom.cfg dispatches to
the fallback fetcher. -/
theorem explicit_dispatch_fallback_witness :
    explicitFetcher implsExample
        { path := "contents/custom.cfg", behavior := "before", template := "v" } =
      implsExample.customRegexFetcher ∧
    fetchVersions implsExample []
        { path := "contents/custom.cfg", behavior := "before", template := "v" }
        oldPex newPex "o/r" =
      explicitVersionsWith implsExample.customRegexFetcher
        { path := "contents/custom.cfg", behavior := "before", template := "v" }
        oldPex newPex "o/r" :=
  explicit_dispatch_fallback implsExample []
    { path := "contents/custom.cfg", behavior := "before", template := "v" }
    oldPex newPex "o/r" (by decide) rfl

/-- Claim C6: the settings checker applies its rules in a fixed order with
the first failure winning and returns the literal messages of the spec's
scenarios: the empty path, the leading-slash path, the double-slash path,
the unsupported base filename, the empty and unrecognized behaviors, the
empty template and the template lacking the placeholder each yield their
message, and the final well-formed row passes with no error. -/
theorem checkSettings_scenario_table :
    checkSettingsForErrors { path := "", behavior := "", template := "" } =
      some "error .atc.yaml; path = \"\"; check your configurate file" ∧
    checkSettingsForErrors { path := "/contents/pom.xml", behavior := "", template := "" } =
      some "error .atc.yaml; path has prefix \"/\"" ∧
    checkSettingsForErrors { path := "contents//asd.txt", behavior := "", template := "" } =
      some "error .atc.yaml; path has \"//\"" ∧
    checkSettingsForErrors { path := "contents/asd.txt", behavior := "", template := "" } =
      some "error .atc.yaml: path no has suffix \"pom.xml\" or \"gradle.properties\" or \".npmrc\"" ∧
    checkSettingsForErrors { path := "contents/pom.xml", behavior := "", template := "" } =
      some "error .atc.yaml; behavior = \"\"; check your configurate file" ∧
    checkSettingsForErrors { path := "contents/pom.xml/", behavior := "bef", template := "" } =
      some "error .atc.yaml: behavior no contains \"before\" or \"after\"" ∧
    checkSettingsForErrors { path := "contents/pom.xml", behavior := "after", template := "" } =
      some "error .atc.yaml; template = \"\"; check your configurate file" ∧
    checkSettingsForErrors
        { path := "contents/pom.xml", behavior := "after", template := "\x7b.version\x7d" } =
      some "error .atc.yaml: template no contains \"\x7b\x7b.version\x7d\x7d\"" ∧
    checkSettingsForErrors
        { path := "contents/pom.xml", behavior := "before", template := ".vers" } =
      some "error .atc.yaml: template no contains \"\x7b\x7b.version\x7d\x7d\"" ∧
    checkSettingsForErrors
        { path := "contents/pom.xml", behavior := "before", template := "v\x7b\x7b.version\x7d\x7dV" } =
      none := by
  decide

/-- Provider at which every retrieval fails with the classified
errHttpStatusCode (the file is absent at this reference). -/
def notFoundProvider : ContentProvider := fun _ => ("", some FetchErr.httpStatusCode)

/-- Claim C3: a classified retrieval error on the old reference alone never
aborts fetch - in explicit mode the fetcher-returned old value (the zero
value for the repository's fetchers) is adopted and processing continues to
the comparison; any error on the new reference aborts fetch in explicit
mode with the wrapped new-version error, and in auto-detect mode
disqualifies the fetcher, moving the iteration to the next entry; in
auto-detect mode a classified old error alone likewise does not
disqualify. -/
theorem fetch_error_classification :
    (∀ (impls : FetcherImpls) (order : List (String × VersionFetcher)) (s : AtcSettings)
        (oldP newP : ContentProvider) (fn : String),
      s.path ≠ "" →
      ((explicitFetcher impls s).getVersion oldP s).2 = some FetchErr.httpStatusCode →
      ((explicitFetcher impls s).getVersion newP s).2 = none →
      fetch impls order s oldP newP fn =
        compareAndRender s ((explicitFetcher impls s).getVersion oldP s).1
          ((explicitFetcher impls s).getVersion newP s).1) ∧
    (∀ (impls : FetcherImpls) (order : List (String × VersionFetcher)) (s : AtcSettings)
        (oldP newP : ContentProvider) (fn : String) (e : FetchErr),
      s.path ≠ "" →
      (((explicitFetcher impls s).getVersion oldP s).2 = none ∨
       ((explicitFetcher impls s).getVersion oldP s).2 = some FetchErr.httpStatusCode) →
      ((explicitFetcher impls s).getVersion newP s).2 = some e →
      fetch impls order s oldP newP fn =
        Except.error ("get new version error for " ++ goQuote fn ++ ": " ++ e.message)) ∧
    (∀ (impls : FetcherImpls) (kf : String × VersionFetcher)
        (rest : List (String × VersionFetcher)) (s : AtcSettings)
        (oldP newP : ContentProvider) (fn : String) (e : FetchErr),
      s.path = "" →
      ((kf.2.getVersionUsingDefaultPath oldP).2 = none ∨
       (kf.2.getVersionUsingDefaultPath oldP).2 = some FetchErr.httpStatusCode) →
      (kf.2.getVersionUsingDefaultPath newP).2 = some e →
      fetch impls (kf :: rest) s oldP newP fn = fetch impls rest s oldP newP fn) ∧
    (∀ (impls : FetcherImpls) (kf : String × VersionFetcher)
        (rest : List (String × VersionFetcher)) (s : AtcSettings)
        (oldP newP : ContentProvider) (fn : String),
      s.path = "" →
      (kf.2.getVersionUsingDefaultPath oldP).2 = some FetchErr.httpStatusCode →
      (kf.2.getVersionUsingDefaultPath newP).2 = none →
      fetch impls (kf :: rest) s oldP newP fn =
        compareAndRender s (kf.2.getVersionUsingDefaultPath oldP).1
          (kf.2.getVersionUsingDefaultPath newP).1) := by
  refine ⟨?_, ?_, ?_, ?_⟩
  · intro impls order s oldP newP fn hp hold hnew
    rw [fetch_explicit impls order s oldP newP fn hp]
    unfold explicitVersionsWith
    rw [if_neg (fun hc => hc.2 hold), hnew]
  · intro impls order s oldP newP fn e hp hold hnew
    rw [fetch_explicit impls order s oldP newP fn hp]
    unfold explicitVersionsWith
    rw [if_neg (fun hc => hold.elim (fun h => hc.1 h) (fun h => hc.2 h)), hnew]
  · intro impls kf rest s oldP newP fn e hp htol hnew
    rw [fetch_auto impls (kf :: rest) s oldP newP fn hp,
      fetch_auto impls rest s oldP newP fn hp]
    simp only [autoVersions]
    rw [if_neg (fun hc => htol.elim (fun h => hc.1 h) (fun h => hc.2 h)), hnew]
  · intro impls kf rest s oldP newP fn hp hold hnew
    rw [fetch_auto impls (kf :: rest) s oldP newP fn hp]
    simp only [autoVersions]
    rw [if_neg (fun hc => hc.2 hold), hnew]

/-- Witness for C3: the pom.xml manifest absent at the old reference is
tolerated in both modes and the change to 1.1.0 is reported, while a dead
new reference aborts explicit mode and disqualifies the fetcher in
auto-detect mode. -/
theorem fetch_error_classification_witness :
    fetch implsExample [] pomSettings notFoundProvider newPex "o/r" = Except.ok "v1.1.0" ∧
    fetch implsExample [] pomSettings oldPex deadProvider "o/r" =
      Except.error ("get new version error for " ++ goQuote "o/r" ++ ": " ++
        (FetchErr.other "404").message) ∧
    fetch implsExample [("pom.xml", implsExample.pomXmlFetcher)] autoSettings oldPex
        deadProvider "o/r" = fetch implsExample [] autoSettings oldPex deadProvider "o/r" ∧
    fetch implsExample [("pom.xml", implsExample.pomXmlFetcher)] autoSettings
        notFoundProvider newPex "o/r" = Except.ok "v1.1.0" := by
  refine ⟨?_, ?_, ?_, ?_⟩
  · rw [fetch_error_classification.1 implsExample [] pomSettings notFoundProvider newPex
      "o/r" (by decide) (by decide) (by decide)]
    decide
  · exact fetch_error_classification.2.1 implsExample [] pomSettings oldPex deadProvider
      "o/r" (FetchErr.other "404") (by decide) (by decide) (by decide)
  · exact fetch_error_classification.2.2.1 implsExample
      ("pom.xml", implsExample.pomXmlFetcher) [] autoSettings oldPex deadProvider "o/r"
      (FetchErr.other "404") rfl (by decide) (by decide)
  · rw [fetch_error_classification.2.2.2 implsExample
      ("pom.xml", implsExample.pomXmlFetcher) [] autoSettings notFoundProvider newPex
      "o/r" rfl (by decide) (by decide)]
    decide

/-- Claim C5: when the adopted version pair differs and the template is a
well-formed template containing the version placeholder, fetch returns a
rendered caption containing the new version's text as a contiguous
segment; in particular the end-to-end pom.xml scenario with old version
1.0.0, new version 1.1.0 and template v-placeholder yields exactly
v1.1.0. -/
theorem fetch_changed_caption_contains_version :
    (∀ (impls : FetcherImpls) (order : List (String × VersionFetcher)) (s : AtcSettings)
        (oldP newP : ContentProvider) (fn o n : String),
      fetchVersions impls order s oldP newP fn = Except.ok (o, n) →
      n ≠ o →
      templateOk s.template.data = true →
      occursIn versionPlaceholder s.template.data = true →
      ∃ c, fetch impls order s oldP newP fn = Except.ok c ∧
        ∃ l r : List Char, c.data = l ++ n.data ++ r) ∧
    fetch implsExample [] pomSettings oldPex newPex "octocat/Hello-World" =
      Except.ok "v1.1.0" := by
  constructor
  · intro impls order s oldP newP fn o n hv hne htok hocc
    obtain ⟨l, r, hlr⟩ := renderChars_contains n.data s.template.data htok hocc
    refine ⟨String.mk (renderChars n.data s.template.data), ?_, l, r, hlr⟩
    unfold fetch
    rw [hv]
    show compareAndRender s o n = _
    unfold compareAndRender
    rw [if_pos hne]
    unfold renderTagNameTemplate
    rw [if_pos htok]
  · decide

/-- Witness for C5: the auto-detect scenario moving pom.xml from 1.0.0 to
1.1.0 renders a caption containing 1.1.0. -/
theorem fetch_changed_caption_contains_version_witness :
    ∃ c, fetch implsExample (autoFetchers implsExample) autoSettings oldPex newPex "o/r" =
        Except.ok c ∧
      ∃ l r : List Char, c.data = l ++ ("1.1.0" : String).data ++ r :=
  fetch_changed_caption_contains_version.1 implsExample (autoFetchers implsExample)
    autoSettings oldPex newPex "o/r" "1.0.0" "1.1.0" (by decide) (by decide) (by decide)
    (by decide)

/-- Counterexample for C1: the registered fetcher set of the code is
exactly pom.xml, build.gradle, package.json and pubspec.yaml - neither
.npmrc nor gradle.properties is registered - and exhausting it yields the
literal error "unable to fetch version using known methods", a different
string than the claimed "no supported manifest format found". -/
theorem auto_fetch_registry_counterexample :
    (autoFetchers implsExample).map Prod.fst =
      ["pom.xml", "build.gradle", "package.json", "pubspec.yaml"] ∧
    (((autoFetchers implsExample).map Prod.fst).contains ".npmrc") = false ∧
    (((autoFetchers implsExample).map Prod.fst).contains "gradle.properties") = false ∧
    fetch implsExample (autoFetchers implsExample) autoSettings deadProvider deadProvider
      "o/r" = Except.error "unable to fetch version using known methods" ∧
    (("unable to fetch version using known methods" : String) ==
      "no supported manifest format found") = false := by
  refine ⟨rfl, by decide, by decide, by decide, by decide⟩

/-- Claim C1 as amended: in auto-detect mode fetch iterates exactly the
registered set pom.xml, build.gradle, package.json, pubspec.yaml (in the
order Go's map range supplies); for each entry it attempts the old
reference, tolerating only the classified error, then the new reference;
the first entry whose old call is tolerated and whose new call succeeds
wins, its version pair is adopted and iteration stops; if no entry wins,
fetch returns the error "unable to fetch version using known methods". -/
theorem auto_fetch_registry_and_first_win (impls : FetcherImpls)
    (order : List (String × VersionFetcher)) (s : AtcSettings)
    (oldP newP : ContentProvider) (fn : String)
    (hpath : s.path = "") (horder : order.Perm (autoFetchers impls)) :
    (autoFetchers impls).map Prod.fst =
      ["pom.xml", "build.gradle", "package.json", "pubspec.yaml"] ∧
    ((∀ kf ∈ order, ¬ attemptWins oldP newP kf) →
      fetch impls order s oldP newP fn =
        Except.error "unable to fetch version using known methods") ∧
    (∀ pre kf post, order = pre ++ kf :: post →
      (∀ x ∈ pre, ¬ attemptWins oldP newP x) →
      attemptWins oldP newP kf →
      fetch impls order s oldP newP fn =
        compareAndRender s (adoptedPair oldP newP kf).1 (adoptedPair oldP newP kf).2) := by
  refine ⟨rfl, ?_, ?_⟩
  · intro h
    exact (fetch_auto_error_iff impls order s oldP newP fn hpath).mpr h
  · intro pre kf post heq hpre hw
    rw [fetch_auto impls order s oldP newP fn hpath, heq,
      autoVersions_first_win oldP newP pre kf post hpre hw]

/-- Witness for amended C1: with every manifest absent the loop exhausts
and errs with the code's literal message, and with a changing pom.xml the
first entry wins and its pair is compared and rendered. -/
theorem auto_fetch_registry_and_first_win_witness :
    fetch implsExample (autoFetchers implsExample) autoSettings deadProvider deadProvider
        "o/r" = Except.error "unable to fetch version using known methods" ∧
    fetch implsExample (autoFetchers implsExample) autoSettings oldPex newPex "o/r" =
      compareAndRender autoSettings
        (adoptedPair oldPex newPex ("pom.xml", implsExample.pomXmlFetcher)).1
        (adoptedPair oldPex newPex ("pom.xml", implsExample.pomXmlFetcher)).2 := by
  constructor
  · exact (auto_fetch_registry_and_first_win implsExample (autoFetchers implsExample)
      autoSettings deadProvider deadProvider "o/r" rfl (List.Perm.refl _)).2.1 (by decide)
  · exact (auto_fetch_registry_and_first_win implsExample (autoFetchers implsExample)
      autoSettings oldPex newPex "o/r" rfl (List.Perm.refl _)).2.2 []
      ("pom.xml", implsExample.pomXmlFetcher)
      [("build.gradle", implsExample.buildGradleFetcher),
       ("package.json", implsExample.packagejsonFetcher),
       ("pubspec.yaml", implsExample.pubspecyamlFetcher)] rfl (by decide) (by decide)

/-- Counterexample for C2: two iteration orders of the same registered
entries - both permutations of the map, as Go's range may produce either -
give different fetch results on the same settings and providers: the
pom-first order reports v1.1.0 while the pubspec-first order reports no
change. -/
theorem auto_fetch_order_counterexample :
    ((autoFetchers implsExample).reverse).Perm (autoFetchers implsExample) ∧
    fetch implsExample (autoFetchers implsExample) autoSettings oldPex newPex "o/r" =
      Except.ok "v1.1.0" ∧
    fetch implsExample ((autoFetchers implsExample).reverse) autoSettings oldPex newPex
      "o/r" = Except.ok "" ∧
    (("v1.1.0" : String) == "") = false := by
  refine ⟨List.reverse_perm _, by decide, by decide, by decide⟩

/-- Claim C2 as amended: for a fixed iteration order fetch is a pure
function - identical inputs give identical results - and whether
auto-detect fails with the exhaustion error does not depend on the order:
for any two orders containing the same entries, one call errs with
"unable to fetch version using known methods" exactly when the other
does. The selected fetcher, however, may differ between orders. -/
theorem auto_fetch_order_determinism (impls : FetcherImpls)
    (o1 o2 : List (String × VersionFetcher)) (s : AtcSettings)
    (oldP newP : ContentProvider) (fn : String)
    (hpath : s.path = "") (hperm : o1.Perm o2) :
    fetch impls o1 s oldP newP fn = fetch impls o1 s oldP newP fn ∧
    (fetch impls o1 s oldP newP fn =
        Except.error "unable to fetch version using known methods" ↔
      fetch impls o2 s oldP newP fn =
        Except.error "unable to fetch version using known methods") := by
  refine ⟨rfl, ?_⟩
  rw [fetch_auto_error_iff impls o1 s oldP newP fn hpath,
    fetch_auto_error_iff impls o2 s oldP newP fn hpath]
  constructor
  · intro h x hx
    exact h x (hperm.mem_iff.mpr hx)
  · intro h x hx
    exact h x (hperm.mem_iff.mp hx)

/-- Witness for amended C2: the registered order and its reverse agree on
the exhaustion failure when every manifest is absent. -/
theorem auto_fetch_order_determinism_witness :
    fetch implsExample (autoFetchers implsExample) autoSettings deadProvider deadProvider
        "o/r" = fetch implsExample (autoFetchers implsExample) autoSettings deadProvider
        deadProvider "o/r" ∧
    (fetch implsExample (autoFetchers implsExample) autoSettings deadProvider deadProvider
        "o/r" = Except.error "unable to fetch version using known methods" ↔
      fetch implsExample ((autoFetchers implsExample).reverse) autoSettings deadProvider
        deadProvider "o/r" = Except.error "unable to fetch version using known methods") :=
  auto_fetch_order_determinism implsExample (autoFetchers implsExample)
    ((autoFetchers implsExample).reverse) autoSettings deadProvider deadProvider "o/r"
    rfl (List.reverse_perm _).symm
